import Mathlib

/-!
Verification of the `DatabaseManager` persistence layer of the exam-engine
repository (src/services/database/DatabaseManager.ts).

The manager owns a nullable connection handle (`db`), opens the store on
`initialize`, enables foreign keys, runs a linear migration list, and exposes
`getConnection`, `close`, `tableExists`, `getAllTables`, `loadFixtures`.

Shallow embedding choices:
* The underlying SQLite store is modelled by `Store`: the set of table names,
  the rows of the `migrations` tracking table, and the rows of the `questions`
  table that the fixture loader writes (only the columns the claims need).
* Every statement the manager issues is a constructor of `Stmt`; the pure
  SQLite semantics of these specific statements is `engineApply`.
* Failures of the underlying primitives (`open` can throw, `execute` can
  throw) are injected by a `Behavior` oracle; a thrown JS `Error` is a
  `DbError`.  Errors constructed by the manager itself carry their exact
  message string.
* The manager state `MState` holds the handle, the store, and the log of
  primitive store operations issued so far (used to state "zero additional
  store operations" and "release invoked exactly once").
* `JSON.stringify`/`JSON.parse` round-tripping of the fixture question content
  is modelled as the identity on the structured value `QuestionContent`.
-/

namespace ExamEngine

/-- One multiple-choice option of the fixture question
(`{id, text, isCorrect}` objects built in `loadFixtures`). -/
structure Choice where
  id : String
  text : String
  isCorrect : Bool
  deriving DecidableEq, Repr

/-- The structured content serialized into `content_json` by `loadFixtures`
(fields `stem`, `choices`, `correct`, `shuffleChoices`). -/
structure QuestionContent where
  stem : String
  choices : List Choice
  correct : List String
  shuffleChoices : Bool
  deriving DecidableEq, Repr

/-- A row of the `questions` table, restricted to the columns the claims
need: the primary key `id` and the parsed `content_json` blob. -/
structure QuestionRow where
  qid : String
  content : QuestionContent
  deriving DecidableEq, Repr

/-- The statements `DatabaseManager` issues to the store, one constructor per
`execute` call site in the source:
* `pragmaForeignKeysOn` — `PRAGMA foreign_keys = ON` (initialize);
* `createMigrationsTable` — `CREATE TABLE IF NOT EXISTS migrations (...)`
  (runMigrations);
* `selectMigrationVersion v` — `SELECT version FROM migrations WHERE
  version = ?` with parameter `v` (runMigration);
* `execMigration001` — execution of the full `getMigration001()` DDL batch
  (runMigration's `this.db.execute(migration)` for version `001_initial`);
* `insertMigrationRow v t` — `INSERT INTO migrations (version, applied_at)
  VALUES (?, ?)` with parameters `v` and `Date.now()` value `t`;
* `insertExam t`, `insertTopic`, `insertQuestion qid c t`,
  `insertContentPack t` — the four `INSERT OR REPLACE` statements of
  `loadFixtures` (the question insert carries its primary key and parsed
  content blob);
* `selectTableName n` — the `sqlite_master` lookup of `tableExists`;
* `selectAllTableNames` — the `sqlite_master` query of `getAllTables`
  (`... WHERE type='table' AND name NOT LIKE 'sqlite_%' ORDER BY name`). -/
inductive Stmt where
  | pragmaForeignKeysOn
  | createMigrationsTable
  | selectMigrationVersion (version : String)
  | execMigration001
  | insertMigrationRow (version : String) (appliedAt : Nat)
  | insertExam (now : Nat)
  | insertTopic
  | insertQuestion (qid : String) (content : QuestionContent) (now : Nat)
  | insertContentPack (now : Nat)
  | selectTableName (tableName : String)
  | selectAllTableNames
  deriving DecidableEq, Repr

/-- A primitive store operation as seen by the underlying engine: opening the
store (`open({name: dbName})`), executing a statement, or releasing the
connection (`this.db.close()`). -/
inductive LogOp where
  | openConn
  | exec (st : Stmt)
  | closeConn
  deriving DecidableEq, Repr

/-- A JS `Error` surfaced to the caller: either one the manager constructs
itself (with its exact message) or one raised by an underlying primitive. -/
inductive DbError where
  | thrown (message : String)
  | storeError (op : LogOp)
  deriving DecidableEq, Repr

/-- The state of the embedded store, restricted to what the issued statements
read and write: table names of the catalog, rows `(version, applied_at)` of
the `migrations` tracking table, and the fixture-relevant rows of
`questions`. -/
structure Store where
  tables : List String
  migrationRows : List (String × Nat)
  questionRows : List QuestionRow
  deriving DecidableEq, Repr

/-- Add a table name to the catalog if absent (`CREATE TABLE IF NOT EXISTS`). -/
def addTable (name : String) (ts : List String) : List String :=
  if name ∈ ts then ts else ts ++ [name]

/-- Add several table names in order. -/
def addTables (names : List String) (ts : List String) : List String :=
  names.foldl (fun acc n => addTable n acc) ts

/-- The ten tables created by the `getMigration001()` DDL batch, in the order
their `CREATE TABLE IF NOT EXISTS` statements appear in the source. -/
def migration001Tables : List String :=
  ["exams", "topics", "questions", "exhibits", "question_exhibits",
   "attempts", "attempt_items", "progress", "user_preferences", "content_packs"]

/-- ASCII lower-casing: the case folding SQLite's `LIKE` applies by default
(only the ASCII range A-Z is folded). -/
def asciiLower (c : Char) : Char :=
  if 'A' ≤ c ∧ c ≤ 'Z' then Char.ofNat (c.toNat + 32) else c

/-- Whether a table name matches the SQL pattern `sqlite_%` under SQLite
`LIKE` semantics (as in `getAllTables`'s catalog query): comparison is
ASCII-case-insensitive, `_` matches exactly one arbitrary character and `%`
any (possibly empty) suffix — so a name matches iff it has at least seven
characters and its first six case-fold to `sqlite`. -/
def likeSqlitePattern (name : String) : Bool :=
  decide (7 ≤ name.data.length) && ((name.data.take 6).map asciiLower == "sqlite".data)

/-- `INSERT OR REPLACE` into `questions` keyed on the primary key `id`:
any existing row with the same key is replaced. -/
def upsertQuestion (row : QuestionRow) (rows : List QuestionRow) : List QuestionRow :=
  (rows.filter (fun r => !(r.qid == row.qid))) ++ [row]

/-- Pure SQLite semantics of the statements the manager issues: the updated
store and the result rows, projected to the single column each call site
reads (`version` for the migration check, `name` for the catalog queries). -/
def engineApply (s : Store) : Stmt → Store × List String
  | Stmt.pragmaForeignKeysOn => (s, [])
  | Stmt.createMigrationsTable =>
      ({ s with tables := addTable "migrations" s.tables }, [])
  | Stmt.selectMigrationVersion v =>
      (s, (s.migrationRows.filter (fun r => r.1 == v)).map (fun r => r.1))
  | Stmt.execMigration001 =>
      ({ s with tables := addTables migration001Tables s.tables }, [])
  | Stmt.insertMigrationRow v t =>
      ({ s with migrationRows := s.migrationRows ++ [(v, t)] }, [])
  | Stmt.insertExam _ => (s, [])
  | Stmt.insertTopic => (s, [])
  | Stmt.insertQuestion qid c _ =>
      ({ s with questionRows := upsertQuestion ⟨qid, c⟩ s.questionRows }, [])
  | Stmt.insertContentPack _ => (s, [])
  | Stmt.selectTableName n => (s, s.tables.filter (fun t => t == n))
  | Stmt.selectAllTableNames =>
      (s, List.insertionSort (fun a b => a ≤ b)
            (s.tables.filter (fun n => !(likeSqlitePattern n))))

/-- Failure oracle for the underlying primitives: whether `open` throws, and
whether a given `execute` call throws. -/
structure Behavior where
  openFails : Bool
  execFails : Stmt → Bool

/-- The mutable state of the `DatabaseManager` instance together with the
external store: `db` is the nullable connection handle field, `store` the
embedded database, `log` the primitive operations issued so far. -/
structure MState where
  db : Option Unit
  store : Store
  log : List LogOp

/-- `this.db.execute(...)`: the operation is issued (logged); it either
throws (per the oracle) or applies the engine semantics and returns rows. -/
def executeStmt (B : Behavior) (st : Stmt) (s : MState) :
    MState × Except DbError (List String) :=
  let s1 : MState := { s with log := s.log ++ [LogOp.exec st] }
  if B.execFails st then
    (s1, Except.error (DbError.storeError (LogOp.exec st)))
  else
    let res := engineApply s1.store st
    ({ s1 with store := res.1 }, Except.ok res.2)

/-- Sequencing of straight-line statements under JS exception semantics: if
the first step threw, the error propagates with the state reached so far;
otherwise the continuation runs on the new state with the step's value. -/
def tryStep {α β : Type} (r : MState × Except DbError α)
    (k : MState → α → MState × Except DbError β) : MState × Except DbError β :=
  match r with
  | (s1, Except.error e) => (s1, Except.error e)
  | (s1, Except.ok a) => k s1 a

/-- `runMigration(version, migration)`: guard on the handle, check the
tracking table for the version, skip if present, otherwise execute the
migration batch and record it with the current timestamp.  The catch block
of the source only logs and rethrows, so errors propagate unchanged. -/
def runMigration (B : Behavior) (now : Nat) (version : String) (migration : Stmt)
    (s : MState) : MState × Except DbError Unit :=
  if s.db.isNone then
    (s, Except.error (DbError.thrown "Database connection not available"))
  else
    tryStep (executeStmt B (Stmt.selectMigrationVersion version) s) fun s1 rows =>
      if rows.length > 0 then
        (s1, Except.ok ())
      else
        tryStep (executeStmt B migration s1) fun s2 _ =>
          tryStep (executeStmt B (Stmt.insertMigrationRow version now) s2) fun s3 _ =>
            (s3, Except.ok ())

/-- The statically ordered migration list of `runMigrations`:
`[{version: '001_initial', migration: this.getMigration001()}]`. -/
def migrationList : List (String × Stmt) :=
  [("001_initial", Stmt.execMigration001)]

/-- The `for (const {version, migration} of migrations)` loop: apply each
migration in order, stopping at the first error. -/
def runMigrationLoop (B : Behavior) (now : Nat) :
    List (String × Stmt) → MState → MState × Except DbError Unit
  | [], s => (s, Except.ok ())
  | (v, m) :: rest, s =>
    tryStep (runMigration B now v m s) fun s1 _ =>
      runMigrationLoop B now rest s1

/-- `runMigrations()`: guard on the handle, ensure the tracking table exists,
then run the migration list in order. -/
def runMigrations (B : Behavior) (now : Nat) (s : MState) :
    MState × Except DbError Unit :=
  if s.db.isNone then
    (s, Except.error (DbError.thrown "Database connection not available"))
  else
    tryStep (executeStmt B Stmt.createMigrationsTable s) fun s1 _ =>
      runMigrationLoop B now migrationList s1

/-- The `initialize()` method (named `initDb` here because `initialize` is a
Lean keyword): return immediately when a connection exists; otherwise open
the store (setting the handle on success), enable foreign keys, run the
migrations.  The catch block of the source only logs and rethrows, and in
particular does not clear `this.db`. -/
def initDb (B : Behavior) (now : Nat) (s : MState) :
    MState × Except DbError Unit :=
  if s.db.isSome then
    (s, Except.ok ())
  else
    if B.openFails then
      ({ s with log := s.log ++ [LogOp.openConn] },
       Except.error (DbError.storeError LogOp.openConn))
    else
      tryStep (executeStmt B Stmt.pragmaForeignKeysOn
          { s with db := some (), log := s.log ++ [LogOp.openConn] }) fun s2 _ =>
        runMigrations B now s2

/-- `getConnection()`: throw the fixed not-initialized error when the handle
is null, otherwise return the handle.  It only reads the state. -/
def getConnection (s : MState) : MState × Except DbError Unit :=
  match s.db with
  | none =>
      (s, Except.error (DbError.thrown "Database not initialized. Call initialize() first."))
  | some c => (s, Except.ok c)

/-- `close()`: release the connection and null the handle when one is open;
otherwise do nothing. -/
def close (s : MState) : MState :=
  match s.db with
  | some _ => { db := none, store := s.store, log := s.log ++ [LogOp.closeConn] }
  | none => s

/-- `n` consecutive `close()` calls. -/
def closeN : Nat → MState → MState
  | 0, s => s
  | n + 1, s => closeN n (close s)

/-- `tableExists(tableName)`: guard on the handle, query `sqlite_master` for
the name, return whether any row came back. -/
def tableExists (B : Behavior) (tableName : String) (s : MState) :
    MState × Except DbError Bool :=
  if s.db.isNone then
    (s, Except.error (DbError.thrown "Database connection not available"))
  else
    tryStep (executeStmt B (Stmt.selectTableName tableName) s) fun s1 rows =>
      (s1, Except.ok (decide (rows.length > 0)))

/-- `getAllTables()`: guard on the handle, query `sqlite_master` for all
non-system table names ordered by name, return the `name` column.  The
mock-array and native result-set branches of the source both read `row.name`
for every row, so they coincide in the model. -/
def getAllTables (B : Behavior) (s : MState) :
    MState × Except DbError (List String) :=
  if s.db.isNone then
    (s, Except.error (DbError.thrown "Database connection not available"))
  else
    tryStep (executeStmt B Stmt.selectAllTableNames s) fun s1 rows =>
      (s1, Except.ok rows)

/-- The structured question content built in `loadFixtures` before
`JSON.stringify` (the `questionContent` local). -/
def fixtureQuestionContent : QuestionContent :=
  { stem := "Which activity is part of Business Analysis Planning?"
    choices :=
      [ { id := "A", text := "Define stakeholder roles and responsibilities", isCorrect := true }
      , { id := "B", text := "Elicit requirements from stakeholders", isCorrect := false }
      , { id := "C", text := "Test the final solution", isCorrect := false }
      , { id := "D", text := "Implement approved changes", isCorrect := false } ]
    correct := ["A"]
    shuffleChoices := true }

/-- `loadFixtures()`: guard on the handle, then the four `INSERT OR REPLACE`
statements (exam, topic, question, content pack) with `now = Date.now()`,
errors propagating unchanged. -/
def loadFixtures (B : Behavior) (now : Nat) (s : MState) :
    MState × Except DbError Unit :=
  if s.db.isNone then
    (s, Except.error (DbError.thrown "Database connection not available"))
  else
    tryStep (executeStmt B (Stmt.insertExam now) s) fun s1 _ =>
      tryStep (executeStmt B Stmt.insertTopic s1) fun s2 _ =>
        tryStep (executeStmt B
            (Stmt.insertQuestion "q_cbap_planning_001" fixtureQuestionContent now) s2) fun s3 _ =>
          tryStep (executeStmt B (Stmt.insertContentPack now) s3) fun s4 _ =>
            (s4, Except.ok ())

/-- Look up the parsed `content_json` of the question with the given primary
key. -/
def lookupQuestionContent (qid : String) (s : Store) : Option QuestionContent :=
  (s.questionRows.find? (fun r => r.qid == qid)).map (fun r => r.content)

/-- A fresh manager over an empty store: handle null, nothing issued yet. -/
def freshState : MState :=
  { db := none, store := { tables := [], migrationRows := [], questionRows := [] }, log := [] }

/-- A behavior where every primitive succeeds. -/
def allOk : Behavior :=
  { openFails := false, execFails := fun _ => false }

/-- A behavior where `open` succeeds but executing the `001_initial` DDL
batch throws. -/
def migrationBatchFails : Behavior :=
  { openFails := false, execFails := fun st => st == Stmt.execMigration001 }

/-- A behavior where opening the store throws. -/
def openFailsBehavior : Behavior :=
  { openFails := true, execFails := fun _ => false }

/-- A manager that has a live connection over an empty store. -/
def readyState : MState :=
  { db := some (), store := { tables := [], migrationRows := [], questionRows := [] }, log := [] }

/-- A manager with a live connection over a store holding two user tables
and one engine-internal table. -/
def tablesState : MState :=
  { db := some (),
    store := { tables := ["topics", "sqlite_sequence", "exams"],
               migrationRows := [], questionRows := [] },
    log := [] }

/-- A manager with a live connection over a store holding one user table
named `sqlitex`: it does not start with the system prefix `sqlite_`, yet it
matches `sqlite_%` under `LIKE` (the `_` matches the `x`). -/
def sqlitexState : MState :=
  { db := some (),
    store := { tables := ["sqlitex"], migrationRows := [], questionRows := [] },
    log := [] }

/-! ## Helper lemmas -/

/-- `execute` never touches the connection handle. -/
theorem executeStmt_db (B : Behavior) (st : Stmt) (s : MState) :
    (executeStmt B st s).1.db = s.db := by
  unfold executeStmt
  cases h : B.execFails st <;> simp [h]

/-- Sequencing preserves the handle if both sides do. -/
theorem tryStep_db {α β : Type} (r : MState × Except DbError α)
    (k : MState → α → MState × Except DbError β)
    (hk : ∀ s a, (k s a).1.db = s.db) :
    (tryStep r k).1.db = r.1.db := by
  rcases r with ⟨s1, e⟩
  cases e with
  | error e => rfl
  | ok a => exact hk s1 a

/-- `runMigration` never touches the connection handle. -/
theorem runMigration_db (B : Behavior) (now : Nat) (v : String) (m : Stmt) (s : MState) :
    (runMigration B now v m s).1.db = s.db := by
  unfold runMigration
  split
  · rfl
  · refine (tryStep_db _ _ ?_).trans (executeStmt_db ..)
    intro s1 rows
    split
    · rfl
    · refine (tryStep_db _ _ ?_).trans (executeStmt_db ..)
      intro s2 _
      refine (tryStep_db _ _ ?_).trans (executeStmt_db ..)
      intro s3 _
      rfl

/-- The migration loop never touches the connection handle. -/
theorem runMigrationLoop_db (B : Behavior) (now : Nat) :
    ∀ (l : List (String × Stmt)) (s : MState),
      (runMigrationLoop B now l s).1.db = s.db
  | [], _ => rfl
  | (v, m) :: rest, s => by
    unfold runMigrationLoop
    refine (tryStep_db _ _ ?_).trans (runMigration_db ..)
    intro s1 _
    exact runMigrationLoop_db B now rest s1

/-- `runMigrations` never touches the connection handle. -/
theorem runMigrations_db (B : Behavior) (now : Nat) (s : MState) :
    (runMigrations B now s).1.db = s.db := by
  unfold runMigrations
  split
  · rfl
  · refine (tryStep_db _ _ ?_).trans (executeStmt_db ..)
    intro s1 _
    exact runMigrationLoop_db B now migrationList s1

/-- With a live connection, `initialize` returns at once, unchanged. -/
theorem initDb_some (B : Behavior) (now : Nat) (s : MState) (h : s.db.isSome) :
    initDb B now s = (s, Except.ok ()) := by
  unfold initDb
  simp [h]

/-- When the open step succeeds, the handle is set and stays set for the
rest of `initialize`, failing or not. -/
theorem initDb_db_of_open_ok (B : Behavior) (now : Nat) (s : MState)
    (h : s.db = none) (hopen : B.openFails = false) :
    (initDb B now s).1.db = some () := by
  unfold initDb
  simp only [h, Option.isSome_none, Bool.false_eq_true, if_false, hopen]
  refine ((tryStep_db _ _ ?_).trans (executeStmt_db ..)).trans rfl
  intro s2 _
  exact runMigrations_db B now s2

/-- `close` on a closed manager does nothing. -/
theorem close_of_none (s : MState) (h : s.db = none) : close s = s := by
  unfold close
  rw [h]

/-- Repeated `close` on a closed manager does nothing. -/
theorem closeN_of_none (n : Nat) (s : MState) (h : s.db = none) : closeN n s = s := by
  induction n with
  | zero => rfl
  | succ m ih =>
    show closeN m (close s) = s
    rw [close_of_none s h, ih]

/-- A successful `execute`: the operation is logged, the engine semantics
applied, the rows returned. -/
theorem executeStmt_ok (B : Behavior) (st : Stmt) (s : MState)
    (h : B.execFails st = false) :
    executeStmt B st s =
      ({ db := s.db, store := (engineApply s.store st).1,
         log := s.log ++ [LogOp.exec st] },
       Except.ok (engineApply s.store st).2) := by
  simp [executeStmt, h]

/-- A throwing `execute`: the operation is logged, nothing else happens. -/
theorem executeStmt_fail (B : Behavior) (st : Stmt) (s : MState)
    (h : B.execFails st = true) :
    executeStmt B st s =
      ({ db := s.db, store := s.store, log := s.log ++ [LogOp.exec st] },
       Except.error (DbError.storeError (LogOp.exec st))) := by
  simp [executeStmt, h]

/-- `runMigration` when the tracking row for the version is present: only the
version check runs, nothing changes in the store. -/
theorem runMigration_skip (B : Behavior) (now : Nat) (version : String)
    (mig : Stmt) (s : MState) (hdb : s.db = some ())
    (hsel : B.execFails (Stmt.selectMigrationVersion version) = false)
    (happ : s.store.migrationRows.filter (fun r => r.1 == version) ≠ []) :
    runMigration B now version mig s =
      ({ db := s.db, store := s.store,
         log := s.log ++ [LogOp.exec (Stmt.selectMigrationVersion version)] },
       Except.ok ()) := by
  have hpos :
      ((s.store.migrationRows.filter (fun r => r.1 == version)).map
            (fun r => r.1)).length > 0 := by
    rw [List.length_map]
    exact List.length_pos.mpr happ
  unfold runMigration
  rw [hdb]
  simp only [Option.isNone_some, Bool.false_eq_true, if_false]
  rw [executeStmt_ok B _ s hsel]
  simp only [engineApply, tryStep]
  rw [if_pos hpos]
  simp [hdb]

/-- `runMigration` when the version is absent and the SQL batch and the
tracking insert both succeed: the batch runs, then the tracking row is
recorded with the current timestamp. -/
theorem runMigration_not_applied (B : Behavior) (now : Nat) (version : String)
    (mig : Stmt) (s : MState) (hdb : s.db = some ())
    (hsel : B.execFails (Stmt.selectMigrationVersion version) = false)
    (hnot : s.store.migrationRows.filter (fun r => r.1 == version) = [])
    (hmig : B.execFails mig = false)
    (hins : B.execFails (Stmt.insertMigrationRow version now) = false) :
    runMigration B now version mig s =
      ({ db := s.db,
         store := (engineApply (engineApply s.store mig).1
                    (Stmt.insertMigrationRow version now)).1,
         log := s.log ++ [LogOp.exec (Stmt.selectMigrationVersion version),
                          LogOp.exec mig,
                          LogOp.exec (Stmt.insertMigrationRow version now)] },
       Except.ok ()) := by
  unfold runMigration
  rw [hdb]
  simp only [Option.isNone_some, Bool.false_eq_true, if_false]
  rw [executeStmt_ok B _ s hsel]
  simp only [engineApply, tryStep]
  rw [hnot]
  simp only [List.map_nil, List.length_nil, gt_iff_lt, Nat.lt_irrefl, if_false]
  rw [executeStmt_ok B mig _ hmig]
  simp only [tryStep]
  rw [executeStmt_ok B _ _ hins]
  simp only [tryStep]
  simp [engineApply, List.append_assoc, hdb]

/-- `runMigration` when the version is absent and the SQL batch throws: the
error propagates, the store is unchanged, no tracking row is inserted. -/
theorem runMigration_fail_helper (B : Behavior) (now : Nat) (version : String)
    (mig : Stmt) (s : MState) (hdb : s.db = some ())
    (hsel : B.execFails (Stmt.selectMigrationVersion version) = false)
    (hnot : s.store.migrationRows.filter (fun r => r.1 == version) = [])
    (hfail : B.execFails mig = true) :
    runMigration B now version mig s =
      ({ db := s.db, store := s.store,
         log := s.log ++ [LogOp.exec (Stmt.selectMigrationVersion version),
                          LogOp.exec mig] },
       Except.error (DbError.storeError (LogOp.exec mig))) := by
  unfold runMigration
  rw [hdb]
  simp only [Option.isNone_some, Bool.false_eq_true, if_false]
  rw [executeStmt_ok B _ s hsel]
  simp only [engineApply, tryStep]
  rw [hnot]
  simp only [List.map_nil, List.length_nil, gt_iff_lt, Nat.lt_irrefl, if_false]
  rw [executeStmt_fail B mig _ hfail]
  simp only [tryStep]
  simp [List.append_assoc, hdb]

/-! ## Claims -/

/-- Claim C4 (confirmed): when a live connection already exists,
`initialize()` returns immediately with the state (store, log, handle)
unchanged — in particular it issues zero additional store operations. -/
theorem initDb_idempotent (B : Behavior) (now : Nat) (s : MState)
    (h : s.db.isSome = true) :
    initDb B now s = (s, Except.ok ()) ∧ (initDb B now s).1.log = s.log := by
  have hi := initDb_some B now s h
  exact ⟨hi, by rw [hi]⟩

/-- Witness for claim C4 at a live manager over an empty store. -/
theorem initDb_idempotent_witness :
    readyState.db.isSome = true ∧
      (initDb allOk 7 readyState = (readyState, Except.ok ()) ∧
        (initDb allOk 7 readyState).1.log = readyState.log) :=
  ⟨rfl, initDb_idempotent allOk 7 readyState rfl⟩

/-- Claim C5 (confirmed): with no live connection, `getConnection`,
`tableExists` and `getAllTables` each throw rather than return a result, the
state is untouched, and `getConnection`'s error carries the fixed message
`Database not initialized. Call initialize() first.` -/
theorem not_initialized_errors (B : Behavior) (tableName : String) (s : MState)
    (h : s.db = none) :
    getConnection s =
      (s, Except.error (DbError.thrown "Database not initialized. Call initialize() first."))
    ∧ tableExists B tableName s =
      (s, Except.error (DbError.thrown "Database connection not available"))
    ∧ getAllTables B s =
      (s, Except.error (DbError.thrown "Database connection not available")) := by
  refine ⟨?_, ?_, ?_⟩ <;> simp [getConnection, tableExists, getAllTables, h]

/-- Witness for claim C5 at a fresh manager. -/
theorem not_initialized_errors_witness :
    freshState.db = none ∧
      (getConnection freshState =
        (freshState,
         Except.error (DbError.thrown "Database not initialized. Call initialize() first."))
      ∧ tableExists allOk "exams" freshState =
        (freshState, Except.error (DbError.thrown "Database connection not available"))
      ∧ getAllTables allOk freshState =
        (freshState, Except.error (DbError.thrown "Database connection not available"))) :=
  ⟨rfl, not_initialized_errors allOk "exams" freshState rfl⟩

/-- Claim C6 (confirmed): starting from a live connection, any sequence of
`n ≥ 1` consecutive `close()` calls invokes the underlying release primitive
exactly once (exactly one `closeConn` is appended to the operation log), the
handle is null afterwards, and the calls after the first change nothing and
throw nothing (`close` is total). -/
theorem close_releases_once (s : MState) (h : s.db = some ()) (n : Nat) (hn : 1 ≤ n) :
    closeN n s = { db := none, store := s.store, log := s.log ++ [LogOp.closeConn] } := by
  obtain ⟨m, rfl⟩ : ∃ m, n = m + 1 := ⟨n - 1, by omega⟩
  show closeN m (close s) = _
  rw [show close s =
        ({ db := none, store := s.store, log := s.log ++ [LogOp.closeConn] } : MState) from by
      unfold close; rw [h]]
  exact closeN_of_none m _ rfl

/-- Witness for claim C6: three consecutive closes of a live manager. -/
theorem close_releases_once_witness :
    readyState.db = some () ∧ 1 ≤ 3 ∧
      closeN 3 readyState =
        { db := none, store := readyState.store,
          log := readyState.log ++ [LogOp.closeConn] } :=
  ⟨rfl, by omega, close_releases_once readyState rfl 3 (by omega)⟩

/-- Claim C9 (confirmed): the connection handle is mutated only by
`initialize` and `close`; `getConnection`, `tableExists`, `getAllTables`,
`loadFixtures`, `runMigrations` and `runMigration` leave the `db` field
exactly as they found it, for every behavior, argument and state. -/
theorem handle_frame (B : Behavior) (now : Nat) (version tableName : String)
    (mig : Stmt) (s : MState) :
    (getConnection s).1.db = s.db
    ∧ (tableExists B tableName s).1.db = s.db
    ∧ (getAllTables B s).1.db = s.db
    ∧ (loadFixtures B now s).1.db = s.db
    ∧ (runMigrations B now s).1.db = s.db
    ∧ (runMigration B now version mig s).1.db = s.db := by
  refine ⟨?_, ?_, ?_, ?_, runMigrations_db .., runMigration_db ..⟩
  · unfold getConnection
    cases h : s.db <;> simp [h]
  · unfold tableExists
    split
    · rfl
    · refine (tryStep_db _ _ ?_).trans (executeStmt_db ..)
      intro s1 _
      rfl
  · unfold getAllTables
    split
    · rfl
    · refine (tryStep_db _ _ ?_).trans (executeStmt_db ..)
      intro s1 _
      rfl
  · unfold loadFixtures
    split
    · rfl
    · refine (tryStep_db _ _ ?_).trans (executeStmt_db ..)
      intro s1 _
      refine (tryStep_db _ _ ?_).trans (executeStmt_db ..)
      intro s2 _
      refine (tryStep_db _ _ ?_).trans (executeStmt_db ..)
      intro s3 _
      refine (tryStep_db _ _ ?_).trans (executeStmt_db ..)
      intro s4 _
      rfl

/-- Claim C10 (confirmed): `loadFixtures` called with no live connection
throws the error with message `Database connection not available` and leaves
the state untouched, so no store operation is performed. -/
theorem loadFixtures_not_initialized (B : Behavior) (now : Nat) (s : MState)
    (h : s.db = none) :
    loadFixtures B now s =
      (s, Except.error (DbError.thrown "Database connection not available")) := by
  unfold loadFixtures
  simp [h]

/-- Witness for claim C10 at a fresh manager. -/
theorem loadFixtures_not_initialized_witness :
    freshState.db = none ∧
      loadFixtures allOk 7 freshState =
        (freshState, Except.error (DbError.thrown "Database connection not available")) :=
  ⟨rfl, loadFixtures_not_initialized allOk 7 freshState rfl⟩

/-- Claim C2 (confirmed): `runMigration` is a two-state machine per version.
If the tracking table holds a row for the version, only the check runs and
nothing is executed or inserted; if it holds none and the statements succeed,
the full SQL batch is executed and then a tracking row `(version, now)` is
inserted with the current timestamp. -/
theorem runMigration_two_state (B : Behavior) (now : Nat) (version : String)
    (mig : Stmt) (s : MState) (hdb : s.db = some ())
    (hsel : B.execFails (Stmt.selectMigrationVersion version) = false) :
    (s.store.migrationRows.filter (fun r => r.1 == version) ≠ [] →
        runMigration B now version mig s =
          ({ db := s.db, store := s.store,
             log := s.log ++ [LogOp.exec (Stmt.selectMigrationVersion version)] },
           Except.ok ()))
    ∧ (s.store.migrationRows.filter (fun r => r.1 == version) = [] →
        B.execFails mig = false →
        B.execFails (Stmt.insertMigrationRow version now) = false →
        runMigration B now version mig s =
          ({ db := s.db,
             store := (engineApply (engineApply s.store mig).1
                        (Stmt.insertMigrationRow version now)).1,
             log := s.log ++ [LogOp.exec (Stmt.selectMigrationVersion version),
                              LogOp.exec mig,
                              LogOp.exec (Stmt.insertMigrationRow version now)] },
           Except.ok ())
        ∧ (runMigration B now version mig s).1.store.migrationRows =
            (engineApply s.store mig).1.migrationRows ++ [(version, now)]) := by
  constructor
  · intro happ
    exact runMigration_skip B now version mig s hdb hsel happ
  · intro hnot hmig hins
    refine ⟨runMigration_not_applied B now version mig s hdb hsel hnot hmig hins, ?_⟩
    rw [runMigration_not_applied B now version mig s hdb hsel hnot hmig hins]
    simp [engineApply]

/-- Witness for claim C2: on an empty store the `001_initial` batch runs and
its tracking row is recorded. -/
theorem runMigration_two_state_witness :
    (runMigration allOk 7 "001_initial" Stmt.execMigration001 readyState).1.store.migrationRows =
      (engineApply readyState.store Stmt.execMigration001).1.migrationRows ++
        [("001_initial", 7)] :=
  ((runMigration_two_state allOk 7 "001_initial" Stmt.execMigration001 readyState rfl rfl).2
    rfl rfl rfl).2

/-- Claim C3 (confirmed): when the SQL batch of an unapplied migration
throws, `runMigration` propagates the error, leaves the store unchanged and
never inserts the tracking row; a later attempt with working statements
re-runs that same version, executing the batch and recording it. -/
theorem runMigration_batch_failure (B : Behavior) (now : Nat) (version : String)
    (mig : Stmt) (s : MState) (hdb : s.db = some ())
    (hsel : B.execFails (Stmt.selectMigrationVersion version) = false)
    (hnot : s.store.migrationRows.filter (fun r => r.1 == version) = [])
    (hfail : B.execFails mig = true) :
    runMigration B now version mig s =
      ({ db := s.db, store := s.store,
         log := s.log ++ [LogOp.exec (Stmt.selectMigrationVersion version),
                          LogOp.exec mig] },
       Except.error (DbError.storeError (LogOp.exec mig)))
    ∧ ∀ (B2 : Behavior) (now2 : Nat),
        B2.execFails (Stmt.selectMigrationVersion version) = false →
        B2.execFails mig = false →
        B2.execFails (Stmt.insertMigrationRow version now2) = false →
        (runMigration B2 now2 version mig
            (runMigration B now version mig s).1).1.store.migrationRows =
          (engineApply s.store mig).1.migrationRows ++ [(version, now2)] := by
  have hmain := runMigration_fail_helper B now version mig s hdb hsel hnot hfail
  refine ⟨hmain, ?_⟩
  intro B2 now2 hsel2 hmig2 hins2
  rw [hmain]
  rw [runMigration_not_applied B2 now2 version mig
        { db := s.db, store := s.store,
          log := s.log ++ [LogOp.exec (Stmt.selectMigrationVersion version),
                           LogOp.exec mig] }
        hdb hsel2 hnot hmig2 hins2]
  simp [engineApply]

/-- Witness for claim C3: the `001_initial` batch throws over an empty
store. -/
theorem runMigration_batch_failure_witness :
    runMigration migrationBatchFails 7 "001_initial" Stmt.execMigration001 readyState =
      ({ db := some (), store := readyState.store,
         log := [LogOp.exec (Stmt.selectMigrationVersion "001_initial"),
                 LogOp.exec Stmt.execMigration001] },
       Except.error (DbError.storeError (LogOp.exec Stmt.execMigration001))) :=
  (runMigration_batch_failure migrationBatchFails 7 "001_initial" Stmt.execMigration001
    readyState rfl rfl rfl rfl).1

/-- Counterexample to claim C1 as stated: with a behavior where `open`
succeeds but the `001_initial` batch throws, `initialize()` fails, yet the
connection handle is left non-null, and a second `initialize()` call returns
immediately as already initialized instead of re-attempting the
open-pragma-migrate sequence. -/
theorem initDb_failed_handle_cex :
    (initDb migrationBatchFails 7 freshState).2 =
        Except.error (DbError.storeError (LogOp.exec Stmt.execMigration001))
    ∧ (initDb migrationBatchFails 7 freshState).1.db = some ()
    ∧ initDb migrationBatchFails 8 (initDb migrationBatchFails 7 freshState).1 =
        ((initDb migrationBatchFails 7 freshState).1, Except.ok ()) :=
  ⟨rfl, rfl, rfl⟩

/-- Claim C1 (corrected): only a failure of the open step leaves the handle
null (so that such a retry re-attempts the full sequence); once the open
step has succeeded the handle is set and stays set even if `initialize()`
then fails, and every later `initialize()` call returns immediately. -/
theorem initDb_failure_handle (B : Behavior) (now : Nat) (s : MState)
    (h : s.db = none) :
    (B.openFails = true →
        initDb B now s =
          ({ db := none, store := s.store, log := s.log ++ [LogOp.openConn] },
           Except.error (DbError.storeError LogOp.openConn)))
    ∧ (B.openFails = false →
        (initDb B now s).1.db = some ()
        ∧ ∀ (B2 : Behavior) (now2 : Nat),
            initDb B2 now2 (initDb B now s).1 = ((initDb B now s).1, Except.ok ())) := by
  constructor
  · intro hopen
    simp [initDb, h, hopen]
  · intro hopen
    have hdb := initDb_db_of_open_ok B now s h hopen
    refine ⟨hdb, fun B2 now2 => initDb_some B2 now2 _ ?_⟩
    rw [hdb]
    rfl

/-- Witness for claim C1 at a fresh manager whose open step throws. -/
theorem initDb_failure_handle_witness :
    freshState.db = none ∧
      ((openFailsBehavior.openFails = true →
          initDb openFailsBehavior 7 freshState =
            ({ db := none, store := freshState.store,
               log := freshState.log ++ [LogOp.openConn] },
             Except.error (DbError.storeError LogOp.openConn)))
      ∧ (openFailsBehavior.openFails = false →
          (initDb openFailsBehavior 7 freshState).1.db = some ()
          ∧ ∀ (B2 : Behavior) (now2 : Nat),
              initDb B2 now2 (initDb openFailsBehavior 7 freshState).1 =
                ((initDb openFailsBehavior 7 freshState).1, Except.ok ()))) :=
  ⟨rfl, initDb_failure_handle openFailsBehavior 7 freshState rfl⟩

/-- Counterexample to claim C7 as stated: the catalog query filters with
`name NOT LIKE 'sqlite_%'`, and under SQLite `LIKE` semantics the pattern's
`_` matches any single character, so the user table `sqlitex` — which does
not start with the system prefix `sqlite_` — is nonetheless excluded: a
store holding exactly that table yields an empty result. -/
theorem getAllTables_prefix_cex :
    (getAllTables allOk sqlitexState).2 = Except.ok []
    ∧ "sqlitex" ∈ sqlitexState.store.tables
    ∧ "sqlite_".data.isPrefixOf "sqlitex".data = false := by
  refine ⟨rfl, ?_, by decide⟩
  simp [sqlitexState]

/-- Claim C7 (corrected): for every store state, a successful `getAllTables`
returns, in ascending lexical order, exactly the catalog's table names that
do not match the system pattern `sqlite_%` under `LIKE` semantics
(ASCII-case-insensitive, with `_` matching exactly one character). -/
theorem getAllTables_like_nonsystem (B : Behavior) (s : MState)
    (hdb : s.db = some ())
    (hok : B.execFails Stmt.selectAllTableNames = false) :
    ∃ out, (getAllTables B s).2 = Except.ok out
      ∧ List.Sorted (fun a b : String => a ≤ b) out
      ∧ ∀ n, n ∈ out ↔ n ∈ s.store.tables ∧ likeSqlitePattern n = false := by
  refine ⟨List.insertionSort (fun a b => a ≤ b)
      (s.store.tables.filter (fun n => !(likeSqlitePattern n))), ?_, ?_, ?_⟩
  · unfold getAllTables
    rw [hdb]
    simp only [Option.isNone_some, Bool.false_eq_true, if_false]
    rw [executeStmt_ok B _ s hok]
    simp [engineApply, tryStep]
  · exact List.sorted_insertionSort _ _
  · intro n
    rw [List.mem_insertionSort, List.mem_filter]
    simp

/-- Witness for claim C7 over a store with two user tables and one
engine-internal table. -/
theorem getAllTables_like_nonsystem_witness :
    tablesState.db = some () ∧
      ∃ out, (getAllTables allOk tablesState).2 = Except.ok out
        ∧ List.Sorted (fun a b : String => a ≤ b) out
        ∧ ∀ n, n ∈ out ↔ n ∈ tablesState.store.tables ∧ likeSqlitePattern n = false :=
  ⟨rfl, getAllTables_like_nonsystem allOk tablesState rfl rfl⟩

/-- After an upsert, lookup by the upserted primary key finds the new row. -/
theorem find_upsert (row : QuestionRow) (rows : List QuestionRow) :
    (upsertQuestion row rows).find? (fun r => r.qid == row.qid) = some row := by
  unfold upsertQuestion
  rw [List.find?_append]
  have hnone :
      (rows.filter (fun r => !(r.qid == row.qid))).find? (fun r => r.qid == row.qid) = none := by
    rw [List.find?_eq_none]
    intro x hx
    have hmem := (List.mem_filter.mp hx).2
    simp_all
  rw [hnone]
  simp

/-- Looking up the question content by key in a store whose `questions` rows
were just upserted with that key. -/
theorem lookupQuestionContent_upsert (qid : String) (c : QuestionContent)
    (tables : List String) (mrows : List (String × Nat)) (rows : List QuestionRow) :
    lookupQuestionContent qid
        { tables := tables, migrationRows := mrows,
          questionRows := upsertQuestion { qid := qid, content := c } rows } = some c := by
  unfold lookupQuestionContent
  have h := find_upsert { qid := qid, content := c } rows
  simp only at h
  rw [h]
  rfl

/-- Claim C8 (confirmed): the content blob of the fixture question inserted
by `loadFixtures`, once parsed (serialization round-trip modelled as the
identity on the structured value), has stem `Which activity is part of
Business Analysis Planning?`, four choices with ids A, B, C, D of which
exactly A has `isCorrect` true, `correct` equal to the one-element list
containing `A`, and `shuffleChoices` true. -/
theorem loadFixtures_question_content (B : Behavior) (now : Nat) (s : MState)
    (hdb : s.db = some ())
    (h1 : B.execFails (Stmt.insertExam now) = false)
    (h2 : B.execFails Stmt.insertTopic = false)
    (h3 : B.execFails
        (Stmt.insertQuestion "q_cbap_planning_001" fixtureQuestionContent now) = false) :
    ∃ c, lookupQuestionContent "q_cbap_planning_001" (loadFixtures B now s).1.store = some c
      ∧ c.stem = "Which activity is part of Business Analysis Planning?"
      ∧ c.choices.map Choice.id = ["A", "B", "C", "D"]
      ∧ (c.choices.filter (fun ch => ch.isCorrect)).map Choice.id = ["A"]
      ∧ c.correct = ["A"]
      ∧ c.shuffleChoices = true := by
  refine ⟨fixtureQuestionContent, ?_, rfl, rfl, rfl, rfl, rfl⟩
  unfold loadFixtures
  rw [hdb]
  simp only [Option.isNone_some, Bool.false_eq_true, if_false]
  rw [executeStmt_ok B _ s h1]
  simp only [tryStep]
  rw [executeStmt_ok B _ _ h2]
  simp only [tryStep]
  rw [executeStmt_ok B _ _ h3]
  simp only [tryStep]
  cases hp : B.execFails (Stmt.insertContentPack now) with
  | true =>
    rw [executeStmt_fail B _ _ hp]
    simp only [tryStep]
    simp only [engineApply]
    exact lookupQuestionContent_upsert _ _ _ _ _
  | false =>
    rw [executeStmt_ok B _ _ hp]
    simp only [tryStep]
    simp only [engineApply]
    exact lookupQuestionContent_upsert _ _ _ _ _

/-- Witness for claim C8: fixtures loaded on a live manager over an empty
store. -/
theorem loadFixtures_question_content_witness :
    ∃ c, lookupQuestionContent "q_cbap_planning_001"
          (loadFixtures allOk 9 readyState).1.store = some c
      ∧ c.stem = "Which activity is part of Business Analysis Planning?"
      ∧ c.choices.map Choice.id = ["A", "B", "C", "D"]
      ∧ (c.choices.filter (fun ch => ch.isCorrect)).map Choice.id = ["A"]
      ∧ c.correct = ["A"]
      ∧ c.shuffleChoices = true :=
  loadFixtures_question_content allOk 9 readyState rfl rfl rfl rfl

end ExamEngine
